import Mathlib

/-!
# Verification of the Data Catalog facade

Shallow embedding of `datacatalog_facade.py` from
`datacatalog-connectors-commons`.  The facade wraps a remote Data Catalog
client; every remote call either returns a value or fails with one of the
failure kinds the facade distinguishes (permission-denied,
failed-precondition, or any other failure).  The remote client is modelled
as a record of functions, and every facade operation returns its Python
result (`Except` distinguishes a propagated exception from a returned
value) together with the list of remote calls it issued, in order.
-/

set_option autoImplicit false

namespace DataCatalog

/-- Protobuf `Timestamp`: only the `seconds` component is read by the code. -/
structure Timestamp where
  seconds : Int
deriving DecidableEq, Repr, Inhabited

/-- `entry.source_system_timestamps`: only `update_time` is read. -/
structure SystemTimestamps where
  update_time : Timestamp
deriving DecidableEq, Repr, Inhabited

/-- The fields of a Data Catalog Entry that `datacatalog_facade.py` reads. -/
structure Entry where
  name : String
  user_specified_system : String
  user_specified_type : String
  display_name : String
  description : String
  linked_resource : String
  source_system_timestamps : SystemTimestamps
deriving DecidableEq, Repr, Inhabited

/-- `tag_field.enum_value`: only `display_name` is read. -/
structure EnumValue where
  display_name : String
deriving DecidableEq, Repr, Inhabited

/-- A Tag field value.  `double_value` is a protobuf double; the code only
ever compares it for equality, so it is modelled by a type with decidable
equality (no floating-point arithmetic is performed anywhere). -/
structure TagField where
  bool_value : Bool
  double_value : Int
  string_value : String
  timestamp_value : Timestamp
  enum_value : EnumValue
deriving DecidableEq, Repr, Inhabited

/-- The default-constructed protobuf `TagField` (all fields zero/empty). -/
def defaultTagField : TagField :=
  { bool_value := false
    double_value := 0
    string_value := ""
    timestamp_value := { seconds := 0 }
    enum_value := { display_name := "" } }

/-- A Data Catalog Tag: resource name, template name, and a field map.
The protobuf map `tag.fields` is modelled as an association list. -/
@[ext]
structure Tag where
  name : String
  template : String
  fields : List (String × TagField)
deriving DecidableEq, Repr, Inhabited

/-- Protobuf map access `tag.fields[field_id]`: a missing key yields a
default-constructed `TagField` (protobuf message maps auto-vivify). -/
def getField (fields : List (String × TagField)) (field_id : String) : TagField :=
  match fields.lookup field_id with
  | some f => f
  | none => defaultTagField

/-- A search result: the code only reads `relative_resource_name`. -/
structure SearchResult where
  relative_resource_name : String
deriving DecidableEq, Repr, Inhabited

/-- The failure kinds the facade distinguishes: `google.api_core`
`PermissionDenied`, `FailedPrecondition`, and every other exception. -/
inductive RemoteError where
  | permissionDenied
  | failedPrecondition
  | other
deriving DecidableEq, Repr, Inhabited

/-- One remote call issued through the underlying client, with its
arguments, in the order the facade passes them. -/
inductive Call where
  | getEntry (name : String)
  | createEntry (entry_group_name : String) (entry_id : String) (entry : Entry)
  | updateEntry (entry : Entry)
  | deleteEntry (name : String)
  | listTags (entry_name : String)
  | createTag (entry_name : String) (tag : Tag)
  | updateTag (tag : Tag)
  | searchCatalog (include_project_ids : List String) (query : String)
      (order_by : String) (page_size : Nat)
deriving DecidableEq, Repr

/-- The remote `DataCatalogClient`, modelled as an oracle: each method is a
function from the facade's arguments to either a result or a failure. -/
structure Client where
  get_entry : String → Except RemoteError Entry
  create_entry : String → String → Entry → Except RemoteError Entry
  update_entry : Entry → Except RemoteError Entry
  delete_entry : String → Except RemoteError Unit
  list_tags : String → Except RemoteError (List Tag)
  create_tag : String → Tag → Except RemoteError Tag
  update_tag : Tag → Except RemoteError Tag
  search_catalog : List String → String → String → Nat → Except RemoteError (List SearchResult)

/-- The facade's per-instance state: the injected client handle and the
configured project id. -/
structure DataCatalogFacade where
  datacatalog : Client
  project_id : String

/-- `'{}/entries/{}'.format(entry_group_name, entry_id)`. -/
def entryName (entry_group_name entry_id : String) : String :=
  entry_group_name ++ "/entries/" ++ entry_id

namespace DataCatalogFacade

/-- `create_entry`: delegates to the remote create; a `PermissionDenied`
failure is caught (the local variable still holds the input entry, which is
returned); any other failure propagates. -/
def create_entry (self : DataCatalogFacade) (entry_group_name entry_id : String)
    (entry : Entry) : Except RemoteError Entry × List Call :=
  match self.datacatalog.create_entry entry_group_name entry_id entry with
  | .ok created => (.ok created, [Call.createEntry entry_group_name entry_id entry])
  | .error RemoteError.permissionDenied =>
      (.ok entry, [Call.createEntry entry_group_name entry_id entry])
  | .error e => (.error e, [Call.createEntry entry_group_name entry_id entry])

/-- `get_entry`: direct delegation, every failure propagates. -/
def get_entry (self : DataCatalogFacade) (name : String) :
    Except RemoteError Entry × List Call :=
  (self.datacatalog.get_entry name, [Call.getEntry name])

/-- `update_entry`: direct delegation (full replace), every failure
propagates. -/
def update_entry (self : DataCatalogFacade) (entry : Entry) :
    Except RemoteError Entry × List Call :=
  (self.datacatalog.update_entry entry, [Call.updateEntry entry])

/-- Modelled from the spec: `utils.ValuesComparableObject` (repository code
outside this excerpt) gives value equality over the attributes assigned to
it; `__entries_are_equal` assigns the five compared fields to two such
objects and compares them, so it holds exactly when the five fields
{user-specified system, user-specified type, display name, description,
linked resource} all coincide. -/
def entries_are_equal (entry_1 entry_2 : Entry) : Bool :=
  entry_1.user_specified_system == entry_2.user_specified_system
    && entry_1.user_specified_type == entry_2.user_specified_type
    && entry_1.display_name == entry_2.display_name
    && entry_1.description == entry_2.description
    && entry_1.linked_resource == entry_2.linked_resource

/-- `__entry_was_updated`: the source-system update timestamps changed
(new one nonzero and different), or the five compared fields differ. -/
def entry_was_updated (current_entry new_entry : Entry) : Bool :=
  let current_update_time := current_entry.source_system_timestamps.update_time.seconds
  let new_update_time := new_entry.source_system_timestamps.update_time.seconds
  let updated_time_changed := new_update_time != 0 && current_update_time != new_update_time
  updated_time_changed || !(entries_are_equal current_entry new_entry)

/-- `upsert_entry`: fetch; if found, update only when
`__entry_was_updated`; `PermissionDenied` inside the `try` block (from the
fetch, or from the update) falls into the create branch;
`FailedPrecondition` is caught and the current value of the
`persisted_entry` local is returned (the input entry when the fetch raised,
the fetched copy when the update raised); other failures propagate. -/
def upsert_entry (self : DataCatalogFacade) (entry_group_name entry_id : String)
    (entry : Entry) : Except RemoteError Entry × List Call :=
  let entry_name := entryName entry_group_name entry_id
  match self.datacatalog.get_entry entry_name with
  | .ok persisted_entry =>
      if entry_was_updated persisted_entry entry then
        match self.datacatalog.update_entry entry with
        | .ok updated => (.ok updated, [Call.getEntry entry_name, Call.updateEntry entry])
        | .error RemoteError.permissionDenied =>
            let created := self.create_entry entry_group_name entry_id entry
            (created.1, Call.getEntry entry_name :: Call.updateEntry entry :: created.2)
        | .error RemoteError.failedPrecondition =>
            (.ok persisted_entry, [Call.getEntry entry_name, Call.updateEntry entry])
        | .error e => (.error e, [Call.getEntry entry_name, Call.updateEntry entry])
      else
        (.ok persisted_entry, [Call.getEntry entry_name])
  | .error RemoteError.permissionDenied =>
      let created := self.create_entry entry_group_name entry_id entry
      (created.1, Call.getEntry entry_name :: created.2)
  | .error RemoteError.failedPrecondition =>
      (.ok entry, [Call.getEntry entry_name])
  | .error e => (.error e, [Call.getEntry entry_name])

/-- `delete_entry`: `except Exception` catches every failure; the method
always returns `None`. -/
def delete_entry (self : DataCatalogFacade) (name : String) :
    Except RemoteError Unit × List Call :=
  match self.datacatalog.delete_entry name with
  | .ok _ => (.ok (), [Call.deleteEntry name])
  | .error _ => (.ok (), [Call.deleteEntry name])

/-- `create_tag`: direct delegation. -/
def create_tag (self : DataCatalogFacade) (entry_name : String) (tag : Tag) :
    Except RemoteError Tag × List Call :=
  (self.datacatalog.create_tag entry_name tag, [Call.createTag entry_name tag])

/-- `list_tags`: direct delegation. -/
def list_tags (self : DataCatalogFacade) (entry_name : String) :
    Except RemoteError (List Tag) × List Call :=
  (self.datacatalog.list_tags entry_name, [Call.listTags entry_name])

/-- `update_tag`: direct delegation (full replace). -/
def update_tag (self : DataCatalogFacade) (tag : Tag) :
    Except RemoteError Tag × List Call :=
  (self.datacatalog.update_tag tag, [Call.updateTag tag])

/-- One field comparison step of `__tags_fields_are_equal`: boolean, double,
string, timestamp-seconds and enum-display-name values must all coincide. -/
def tagFieldValuesEqual (tag_1_field tag_2_field : TagField) : Bool :=
  tag_1_field.bool_value == tag_2_field.bool_value
    && tag_1_field.double_value == tag_2_field.double_value
    && tag_1_field.string_value == tag_2_field.string_value
    && tag_1_field.timestamp_value.seconds == tag_2_field.timestamp_value.seconds
    && tag_1_field.enum_value.display_name == tag_2_field.enum_value.display_name

/-- `__tags_fields_are_equal`: iterates the field ids of the FIRST tag
only, looking each id up in both field maps; returns `False` on the first
mismatch, `True` when every iterated id matches. -/
def tags_fields_are_equal (tag_1 tag_2 : Tag) : Bool :=
  tag_1.fields.all fun p =>
    tagFieldValuesEqual (getField tag_1.fields p.1) (getField tag_2.fields p.1)

/-- One iteration of the inner `for persisted_tag in persisted_tags` loop of
`upsert_tags`.  The accumulator carries the (mutable) `tag` object's current
value and the booleans "`tag_to_create` is still set" and "`tag_to_update`
is set".  On a template match the tag's `name` is overwritten with the
persisted tag's name, `tag_to_create` is cleared, and `tag_to_update` is set
(never cleared) when the fields differ. -/
def processTagStep (acc : Tag × Bool × Bool) (persisted_tag : Tag) : Tag × Bool × Bool :=
  if acc.1.template == persisted_tag.template then
    let t := { acc.1 with name := persisted_tag.name }
    if tags_fields_are_equal t persisted_tag then (t, false, acc.2.2)
    else (t, false, true)
  else acc

/-- The whole inner loop of `upsert_tags` for one input tag: starting state
`tag_to_create = tag`, `tag_to_update = None`.  Since `tag_to_create` and
`tag_to_update` alias the `tag` object in Python, the final tag value (first
component) is the one passed to the create/update call selected by the two
flags. -/
def processTag (persisted_tags : List Tag) (tag : Tag) : Tag × Bool × Bool :=
  persisted_tags.foldl processTagStep (tag, true, false)

/-- The outer `for tag in tags` loop of `upsert_tags`.  Per tag: create when
no persisted tag matched the template, update when a match had differing
fields, otherwise no call.  A create/update failure propagates, aborting the
remaining iterations.  The third component is the final value of the input
tag list (the loop mutates each tag's `name` on a template match). -/
def upsertTagsLoop (self : DataCatalogFacade) (entry_name : String)
    (persisted_tags : List Tag) :
    List Tag → Except RemoteError Unit × List Call × List Tag
  | [] => (.ok (), [], [])
  | tag :: rest =>
      let step := processTag persisted_tags tag
      if step.2.1 then
        match self.datacatalog.create_tag entry_name step.1 with
        | .ok _ =>
            let r := upsertTagsLoop self entry_name persisted_tags rest
            (r.1, Call.createTag entry_name step.1 :: r.2.1, step.1 :: r.2.2)
        | .error e => (.error e, [Call.createTag entry_name step.1], step.1 :: rest)
      else if step.2.2 then
        match self.datacatalog.update_tag step.1 with
        | .ok _ =>
            let r := upsertTagsLoop self entry_name persisted_tags rest
            (r.1, Call.updateTag step.1 :: r.2.1, step.1 :: r.2.2)
        | .error e => (.error e, [Call.updateTag step.1], step.1 :: rest)
      else
        let r := upsertTagsLoop self entry_name persisted_tags rest
        (r.1, r.2.1, step.1 :: r.2.2)

/-- `upsert_tags`: returns immediately on an empty tag list (no remote
call); otherwise lists the entry's tags once, before the loop, and runs the
loop.  The third component is the final value of the input tag list. -/
def upsert_tags (self : DataCatalogFacade) (entry : Entry) (tags : List Tag) :
    Except RemoteError Unit × List Call × List Tag :=
  if tags.isEmpty then (.ok (), [], tags)
  else
    match self.datacatalog.list_tags entry.name with
    | .ok persisted_tags =>
        let r := upsertTagsLoop self entry.name persisted_tags tags
        (r.1, Call.listTags entry.name :: r.2.1, r.2.2)
    | .error e => (.error e, [Call.listTags entry.name], tags)

/-- `search_catalog`: one request scoped to the configured project id, with
relevance ordering and page size 1000; the returned iterable is drained into
a list. -/
def search_catalog (self : DataCatalogFacade) (query : String) :
    Except RemoteError (List SearchResult) × List Call :=
  let scope := [self.project_id]
  (Except.map (fun results => results.map fun result => result)
      (self.datacatalog.search_catalog scope query "relevance" 1000),
    [Call.searchCatalog scope query "relevance" 1000])

/-- `search_catalog_relative_resource_name`: projects each result of
`search_catalog` to its relative resource name, in order. -/
def search_catalog_relative_resource_name (self : DataCatalogFacade) (query : String) :
    Except RemoteError (List String) × List Call :=
  let r := self.search_catalog query
  (Except.map (List.map fun result => result.relative_resource_name) r.1, r.2)

end DataCatalogFacade

/-! ## Concrete objects used by witnesses and counterexamples -/

/-- A sample persisted entry. -/
def entryA : Entry :=
  { name := "g/entries/e"
    user_specified_system := "sys"
    user_specified_type := "type"
    display_name := "A"
    description := "desc"
    linked_resource := "res"
    source_system_timestamps := { update_time := { seconds := 0 } } }

/-- A sample new entry differing from `entryA` only in its display name. -/
def entryB : Entry := { entryA with display_name := "B" }

/-- A sample new entry with the same five compared fields as `entryA` but a
different resource name. -/
def entryC : Entry := { entryA with name := "other" }

/-- A remote client whose calls all succeed with bland responses. -/
def baseClient : Client :=
  { get_entry := fun _ => .ok entryA
    create_entry := fun _ _ entry => .ok entry
    update_entry := fun entry => .ok entry
    delete_entry := fun _ => .ok ()
    list_tags := fun _ => .ok []
    create_tag := fun _ tag => .ok tag
    update_tag := fun tag => .ok tag
    search_catalog := fun _ _ _ _ => .ok [] }

/-- Whether a remote call is a tag create-or-update call. -/
def isTagWriteCall : Call → Bool
  | Call.createTag _ _ => true
  | Call.updateTag _ => true
  | _ => false

/-- The number of tag create-or-update calls in a trace. -/
def countTagWriteCalls (calls : List Call) : Nat :=
  calls.countP fun call => isTagWriteCall call

/-- The name the inner `upsert_tags` loop leaves on the processed tag: the
name of the last persisted tag whose template matches, else the fallback. -/
def lastMatchingName (template : String) (persisted_tags : List Tag) (fallback : String) :
    String :=
  persisted_tags.foldl (fun acc q => if template == q.template then q.name else acc) fallback

/-- A tag field holding boolean `true` (other members default). -/
def fieldTrue : TagField := { defaultTagField with bool_value := true }

/-- A tag on template "T" with one field holding `true`. -/
def cexBoolTag : Tag := { name := "tbool", template := "T", fields := [("flag", fieldTrue)] }

/-- A tag on template "T" with no fields at all. -/
def cexEmptyTag : Tag := { name := "tempty", template := "T", fields := [] }

/-- An input tag on template "T" whose field "x" holds `true`. -/
def cexTagY : Tag := { name := "orig", template := "T", fields := [("x", fieldTrue)] }

/-- A persisted tag on template "T" whose field "x" holds `false`:
its field values differ from `cexTagY`. -/
def cexP1 : Tag := { name := "n1", template := "T", fields := [("x", defaultTagField)] }

/-- A persisted tag on template "T" whose field values equal `cexTagY`. -/
def cexP2 : Tag := { name := "n2", template := "T", fields := [("x", fieldTrue)] }

/-- A client whose entry holds the two persisted tags `cexP1, cexP2`
(both on template "T", in that order). -/
def cexTagsClient : Client := { baseClient with list_tags := fun _ => .ok [cexP1, cexP2] }

/-- A client whose entry holds exactly the persisted tag `cexP2`. -/
def oneTagClient : Client := { baseClient with list_tags := fun _ => .ok [cexP2] }

/-- A client whose fetch raises failed-precondition. -/
def fpGetClient : Client :=
  { baseClient with get_entry := fun _ => .error RemoteError.failedPrecondition }

/-- A client whose fetch succeeds (returning `entryA`) and whose update
raises failed-precondition. -/
def fpUpdateClient : Client :=
  { baseClient with update_entry := fun _ => .error RemoteError.failedPrecondition }

/-! ## Theorems -/

/-- C1: the change-detection used by `upsert_entry` reports changed iff the
new entry's source-system update-timestamp seconds are nonzero and differ
from the persisted entry's, or one of the five compared fields
{user-specified system, user-specified type, display name, description,
linked resource} differs between the persisted and the new entry. -/
theorem entry_was_updated_iff (current_entry new_entry : Entry) :
    DataCatalogFacade.entry_was_updated current_entry new_entry = true ↔
      ((new_entry.source_system_timestamps.update_time.seconds ≠ 0 ∧
        current_entry.source_system_timestamps.update_time.seconds ≠
          new_entry.source_system_timestamps.update_time.seconds) ∨
       current_entry.user_specified_system ≠ new_entry.user_specified_system ∨
       current_entry.user_specified_type ≠ new_entry.user_specified_type ∨
       current_entry.display_name ≠ new_entry.display_name ∨
       current_entry.description ≠ new_entry.description ∨
       current_entry.linked_resource ≠ new_entry.linked_resource) := by
  simp only [DataCatalogFacade.entry_was_updated, DataCatalogFacade.entries_are_equal,
    Bool.or_eq_true, Bool.and_eq_true, Bool.not_eq_true', Bool.and_eq_false_iff,
    bne_iff_ne, ne_eq, beq_eq_false_iff_ne, beq_iff_eq]
  tauto

/-- Closed instance of C1: two entries differing only in display name, with
zero timestamps, are reported as changed. -/
theorem entry_was_updated_iff_witness :
    DataCatalogFacade.entry_was_updated entryA entryB = true :=
  (entry_was_updated_iff entryA entryB).mpr
    (Or.inr (Or.inr (Or.inr (Or.inl (by decide)))))

/-- C2: when the persisted copy is fetched, the five compared fields agree
and the new timestamp is zero, `upsert_entry` makes no update call (the
trace is the single fetch) and returns the fetched persisted copy. -/
theorem upsert_entry_up_to_date (self : DataCatalogFacade)
    (entry_group_name entry_id : String) (entry persisted_entry : Entry)
    (hget : self.datacatalog.get_entry (entryName entry_group_name entry_id) =
      .ok persisted_entry)
    (h1 : persisted_entry.user_specified_system = entry.user_specified_system)
    (h2 : persisted_entry.user_specified_type = entry.user_specified_type)
    (h3 : persisted_entry.display_name = entry.display_name)
    (h4 : persisted_entry.description = entry.description)
    (h5 : persisted_entry.linked_resource = entry.linked_resource)
    (hts : entry.source_system_timestamps.update_time.seconds = 0) :
    self.upsert_entry entry_group_name entry_id entry =
      (.ok persisted_entry, [Call.getEntry (entryName entry_group_name entry_id)]) := by
  have hchanged : DataCatalogFacade.entry_was_updated persisted_entry entry = false := by
    simp [DataCatalogFacade.entry_was_updated, DataCatalogFacade.entries_are_equal,
      h1, h2, h3, h4, h5, hts]
  simp only [DataCatalogFacade.upsert_entry]
  rw [hget]
  simp [hchanged]

/-- Closed instance of C2: fetching `entryA` against new entry `entryC`
(same five fields, zero timestamp) yields the fetched copy and one call. -/
theorem upsert_entry_up_to_date_witness :
    DataCatalogFacade.upsert_entry ⟨baseClient, "proj"⟩ "g" "e" entryC =
      (.ok entryA, [Call.getEntry "g/entries/e"]) :=
  upsert_entry_up_to_date ⟨baseClient, "proj"⟩ "g" "e" entryC entryA
    rfl rfl rfl rfl rfl rfl rfl

/-- C3: when the inner fetch fails with permission-denied, `upsert_entry`
issues exactly one create call, with the original entry-group name, entry
id and entry, and returns the facade create call's result. -/
theorem upsert_entry_creates_on_permission_denied (self : DataCatalogFacade)
    (entry_group_name entry_id : String) (entry : Entry)
    (hget : self.datacatalog.get_entry (entryName entry_group_name entry_id) =
      .error RemoteError.permissionDenied) :
    self.upsert_entry entry_group_name entry_id entry =
      ((self.create_entry entry_group_name entry_id entry).1,
        [Call.getEntry (entryName entry_group_name entry_id),
         Call.createEntry entry_group_name entry_id entry]) := by
  have htrace : (self.create_entry entry_group_name entry_id entry).2 =
      [Call.createEntry entry_group_name entry_id entry] := by
    unfold DataCatalogFacade.create_entry
    cases hc : self.datacatalog.create_entry entry_group_name entry_id entry with
    | ok created => rfl
    | error e => cases e <;> rfl
  simp only [DataCatalogFacade.upsert_entry]
  rw [hget]
  simp [htrace]

/-- Closed instance of C3: with a client whose fetch is permission-denied
and whose create succeeds, `upsert_entry` fetches then creates. -/
theorem upsert_entry_creates_on_permission_denied_witness :
    DataCatalogFacade.upsert_entry
        ⟨{ baseClient with get_entry := fun _ => .error RemoteError.permissionDenied },
          "proj"⟩ "g" "e" entryB =
      (.ok entryB, [Call.getEntry "g/entries/e", Call.createEntry "g" "e" entryB]) :=
  upsert_entry_creates_on_permission_denied
    ⟨{ baseClient with get_entry := fun _ => .error RemoteError.permissionDenied }, "proj"⟩
    "g" "e" entryB rfl

/-- C7: `delete_entry` swallows every failure of the underlying delete call
and returns normally, having issued exactly the one delete call. -/
theorem delete_entry_never_raises (self : DataCatalogFacade) (name : String) :
    (self.delete_entry name).1 = Except.ok () ∧
      (self.delete_entry name).2 = [Call.deleteEntry name] := by
  unfold DataCatalogFacade.delete_entry
  cases self.datacatalog.delete_entry name <;> exact ⟨rfl, rfl⟩

/-- C8: on a permission-denied create failure, `create_entry` returns the
unpersisted input entry without raising; any other failure kind
propagates. -/
theorem create_entry_error_handling (c1 c2 : Client) (project_id : String)
    (entry_group_name entry_id : String) (entry : Entry) (e : RemoteError)
    (h1 : c1.create_entry entry_group_name entry_id entry =
      .error RemoteError.permissionDenied)
    (h2 : c2.create_entry entry_group_name entry_id entry = .error e)
    (h3 : e ≠ RemoteError.permissionDenied) :
    DataCatalogFacade.create_entry ⟨c1, project_id⟩ entry_group_name entry_id entry =
        (.ok entry, [Call.createEntry entry_group_name entry_id entry]) ∧
      DataCatalogFacade.create_entry ⟨c2, project_id⟩ entry_group_name entry_id entry =
        (.error e, [Call.createEntry entry_group_name entry_id entry]) := by
  constructor
  · unfold DataCatalogFacade.create_entry
    rw [show (⟨c1, project_id⟩ : DataCatalogFacade).datacatalog = c1 from rfl, h1]
  · unfold DataCatalogFacade.create_entry
    rw [show (⟨c2, project_id⟩ : DataCatalogFacade).datacatalog = c2 from rfl, h2]
    cases e with
    | permissionDenied => exact absurd rfl h3
    | failedPrecondition => rfl
    | other => rfl

/-- Closed instance of C8: permission-denied create returns the input; an
`other` failure propagates. -/
theorem create_entry_error_handling_witness :
    DataCatalogFacade.create_entry
        ⟨{ baseClient with create_entry := fun _ _ _ => .error RemoteError.permissionDenied },
          "proj"⟩ "g" "e" entryB =
        (.ok entryB, [Call.createEntry "g" "e" entryB]) ∧
      DataCatalogFacade.create_entry
        ⟨{ baseClient with create_entry := fun _ _ _ => .error RemoteError.other }, "proj"⟩
        "g" "e" entryB =
        (.error RemoteError.other, [Call.createEntry "g" "e" entryB]) :=
  create_entry_error_handling
    { baseClient with create_entry := fun _ _ _ => .error RemoteError.permissionDenied }
    { baseClient with create_entry := fun _ _ _ => .error RemoteError.other }
    "proj" "g" "e" entryB RemoteError.other rfl rfl (by decide)

/-- Draining a returned iterable into a list (`[r for r in results]`) is
the identity on the underlying result list. -/
theorem except_map_list_id {ε α : Type} (x : Except ε (List α)) :
    Except.map (fun results => results.map fun result => result) x = x := by
  cases x <;> simp [Except.map]

/-- C9: `search_catalog` issues exactly one search request, scoped to the
configured project id, ordered by relevance, with page size 1000, and
returns the client's result list; `search_catalog_relative_resource_name`
issues the same single request and projects each result, in order, to its
relative resource name. -/
theorem search_catalog_single_scoped_request (self : DataCatalogFacade) (query : String) :
    (self.search_catalog query).2 =
        [Call.searchCatalog [self.project_id] query "relevance" 1000] ∧
      (self.search_catalog query).1 =
        self.datacatalog.search_catalog [self.project_id] query "relevance" 1000 ∧
      (self.search_catalog_relative_resource_name query).2 =
        (self.search_catalog query).2 ∧
      (self.search_catalog_relative_resource_name query).1 =
        Except.map (List.map SearchResult.relative_resource_name)
          (self.search_catalog query).1 := by
  exact ⟨rfl, except_map_list_id _, rfl, rfl⟩

/-- C4 counterexample: with a client whose fetch returns `entryA` and whose
subsequent update raises failed-precondition, `upsert_entry` on input
`entryB` returns the fetched copy `entryA`, which differs from the input —
refuting "returns the input entry unchanged" for update-raised
failed-precondition. -/
theorem upsert_entry_failed_precondition_cex :
    fpUpdateClient.update_entry entryB = .error RemoteError.failedPrecondition ∧
      (DataCatalogFacade.upsert_entry ⟨fpUpdateClient, "proj"⟩ "g" "e" entryB).1 =
        Except.ok entryA ∧
      entryA ≠ entryB := by
  exact ⟨rfl, rfl, by decide⟩

/-- C4 (amended): a failed-precondition failure inside `upsert_entry` is
caught, logged, and never propagates; when the inner fetch raises it the
input entry is returned unchanged (no further call), and when the
subsequent update raises it the FETCHED persisted copy is returned, not the
input. -/
theorem upsert_entry_failed_precondition (self1 self2 : DataCatalogFacade)
    (entry_group_name entry_id : String) (entry persisted_entry : Entry)
    (h1 : self1.datacatalog.get_entry (entryName entry_group_name entry_id) =
      .error RemoteError.failedPrecondition)
    (h2 : self2.datacatalog.get_entry (entryName entry_group_name entry_id) =
      .ok persisted_entry)
    (h3 : DataCatalogFacade.entry_was_updated persisted_entry entry = true)
    (h4 : self2.datacatalog.update_entry entry = .error RemoteError.failedPrecondition) :
    self1.upsert_entry entry_group_name entry_id entry =
        (.ok entry, [Call.getEntry (entryName entry_group_name entry_id)]) ∧
      self2.upsert_entry entry_group_name entry_id entry =
        (.ok persisted_entry,
          [Call.getEntry (entryName entry_group_name entry_id),
           Call.updateEntry entry]) := by
  constructor
  · simp only [DataCatalogFacade.upsert_entry]
    rw [h1]
  · simp only [DataCatalogFacade.upsert_entry]
    rw [h2]
    simp [h3, h4]

/-- Closed instance of the amended C4: both failed-precondition scenarios at
concrete inputs. -/
theorem upsert_entry_failed_precondition_witness :
    DataCatalogFacade.upsert_entry ⟨fpGetClient, "proj"⟩ "g" "e" entryB =
        (.ok entryB, [Call.getEntry "g/entries/e"]) ∧
      DataCatalogFacade.upsert_entry ⟨fpUpdateClient, "proj"⟩ "g" "e" entryB =
        (.ok entryA, [Call.getEntry "g/entries/e", Call.updateEntry entryB]) :=
  upsert_entry_failed_precondition ⟨fpGetClient, "proj"⟩ ⟨fpUpdateClient, "proj"⟩
    "g" "e" entryB entryA rfl rfl (by decide) rfl

/-- Tag field comparison only reads the field maps: it is unchanged by
replacing the first tag with one carrying the same field map. -/
theorem tags_fields_are_equal_congr (t1 t1' t2 : Tag) (h : t1.fields = t1'.fields) :
    DataCatalogFacade.tags_fields_are_equal t1 t2 =
      DataCatalogFacade.tags_fields_are_equal t1' t2 := by
  unfold DataCatalogFacade.tags_fields_are_equal
  rw [h]

/-- Characterization of the inner `upsert_tags` loop fold: starting from any
tag state sharing `tag`'s template and fields, the fold preserves template
and fields, leaves the last matching persisted name (or the fallback) in the
name, clears the create flag exactly when some persisted tag matches the
template, and sets the update flag exactly when some matching persisted tag
has differing field values. -/
theorem foldl_processTagStep_spec (tag : Tag) (l : List Tag) :
    ∀ (t0 : Tag) (c u : Bool), t0.template = tag.template → t0.fields = tag.fields →
      (l.foldl DataCatalogFacade.processTagStep (t0, c, u)).1.template = tag.template ∧
      (l.foldl DataCatalogFacade.processTagStep (t0, c, u)).1.fields = tag.fields ∧
      (l.foldl DataCatalogFacade.processTagStep (t0, c, u)).1.name =
        lastMatchingName tag.template l t0.name ∧
      (l.foldl DataCatalogFacade.processTagStep (t0, c, u)).2.1 =
        (c && !(l.any fun q => tag.template == q.template)) ∧
      (l.foldl DataCatalogFacade.processTagStep (t0, c, u)).2.2 =
        (u || (l.any fun q => (tag.template == q.template) &&
          !(DataCatalogFacade.tags_fields_are_equal tag q))) := by
  induction l with
  | nil =>
      intro t0 c u ht hf
      exact ⟨ht, hf, rfl, by simp, by simp⟩
  | cons q l ih =>
      intro t0 c u ht hf
      simp only [List.foldl_cons, List.any_cons]
      by_cases hq : tag.template = q.template
      · have hbeq : (t0.template == q.template) = true := by
          rw [ht]; exact beq_iff_eq.mpr hq
        have hcongr : DataCatalogFacade.tags_fields_are_equal
            { t0 with name := q.name } q = DataCatalogFacade.tags_fields_are_equal tag q :=
          tags_fields_are_equal_congr _ tag q hf
        have hstep : DataCatalogFacade.processTagStep (t0, c, u) q =
            ({ t0 with name := q.name }, false,
              u || !(DataCatalogFacade.tags_fields_are_equal tag q)) := by
          simp only [DataCatalogFacade.processTagStep]
          rw [if_pos hbeq, hcongr]
          cases he : DataCatalogFacade.tags_fields_are_equal tag q <;> simp
        rw [hstep]
        obtain ⟨ih1, ih2, ih3, ih4, ih5⟩ :=
          ih { t0 with name := q.name } false
            (u || !(DataCatalogFacade.tags_fields_are_equal tag q)) ht hf
        refine ⟨ih1, ih2, ?_, ?_, ?_⟩
        · rw [ih3]
          show _ = lastMatchingName tag.template l
            (if (tag.template == q.template) = true then q.name else t0.name)
          rw [if_pos (beq_iff_eq.mpr hq)]
        · rw [ih4]
          simp [beq_iff_eq.mpr hq]
        · rw [ih5]
          rw [beq_iff_eq.mpr hq]
          cases u <;> cases DataCatalogFacade.tags_fields_are_equal tag q <;>
            cases l.any fun p =>
              (tag.template == p.template) &&
                !(DataCatalogFacade.tags_fields_are_equal tag p) <;> rfl
      · have hbeq : (t0.template == q.template) = false := by
          rw [ht]; exact beq_eq_false_iff_ne.mpr hq
        have hbeq' : (tag.template == q.template) = false := beq_eq_false_iff_ne.mpr hq
        have hstep : DataCatalogFacade.processTagStep (t0, c, u) q = (t0, c, u) := by
          simp only [DataCatalogFacade.processTagStep]
          rw [if_neg]
          rw [hbeq]
          exact Bool.false_ne_true
        rw [hstep]
        obtain ⟨ih1, ih2, ih3, ih4, ih5⟩ := ih t0 c u ht hf
        refine ⟨ih1, ih2, ?_, ?_, ?_⟩
        · rw [ih3]
          show _ = lastMatchingName tag.template l
            (if (tag.template == q.template) = true then q.name else t0.name)
          rw [if_neg]
          rw [hbeq']
          exact Bool.false_ne_true
        · rw [ih4, hbeq']
          simp
        · rw [ih5, hbeq']
          simp

/-- The whole inner loop of `upsert_tags` on one input tag: the tag keeps
its template and fields, takes the last matching persisted tag's name,
`tag_to_create` survives iff no persisted tag matches the template, and
`tag_to_update` is set iff some matching persisted tag differs in fields. -/
theorem processTag_spec (persisted_tags : List Tag) (tag : Tag) :
    (DataCatalogFacade.processTag persisted_tags tag).1 =
        { tag with name := lastMatchingName tag.template persisted_tags tag.name } ∧
      (DataCatalogFacade.processTag persisted_tags tag).2.1 =
        !(persisted_tags.any fun q => tag.template == q.template) ∧
      (DataCatalogFacade.processTag persisted_tags tag).2.2 =
        (persisted_tags.any fun q => (tag.template == q.template) &&
          !(DataCatalogFacade.tags_fields_are_equal tag q)) := by
  obtain ⟨h1, h2, h3, h4, h5⟩ :=
    foldl_processTagStep_spec tag persisted_tags tag true false rfl rfl
  refine ⟨?_, by simpa using h4, by simpa using h5⟩
  ext <;> simp [h1, h2, h3, DataCatalogFacade.processTag]

/-- When no tag in the list matches the template, the last-matching-name
fold returns the fallback. -/
theorem lastMatchingName_no_match (template : String) (l : List Tag) (fb : String)
    (h : ∀ q ∈ l, template ≠ q.template) :
    lastMatchingName template l fb = fb := by
  induction l generalizing fb with
  | nil => rfl
  | cons q l ih =>
      simp only [lastMatchingName, List.foldl_cons]
      rw [if_neg]
      · exact ih fb fun r hr => h r (List.mem_cons_of_mem q hr)
      · rw [beq_eq_false_iff_ne.mpr (h q (List.mem_cons_self q l))]
        exact Bool.false_ne_true

/-- When `p` matches the template and nothing after it does, the
last-matching-name fold returns `p`'s name. -/
theorem lastMatchingName_append_last (template fb : String) (l1 l2 : List Tag) (p : Tag)
    (hp : template = p.template) (h2 : ∀ q ∈ l2, template ≠ q.template) :
    lastMatchingName template (l1 ++ p :: l2) fb = p.name := by
  show List.foldl _ fb (l1 ++ p :: l2) = p.name
  rw [List.foldl_append]
  simp only [List.foldl_cons]
  rw [if_pos (beq_iff_eq.mpr hp)]
  exact lastMatchingName_no_match template l2 p.name h2

/-- A tag create call is a tag write call. -/
theorem isTagWriteCall_createTag (entry_name : String) (tag : Tag) :
    isTagWriteCall (Call.createTag entry_name tag) = true := rfl

/-- A tag update call is a tag write call. -/
theorem isTagWriteCall_updateTag (tag : Tag) :
    isTagWriteCall (Call.updateTag tag) = true := rfl

/-- The outer `upsert_tags` loop issues at most one tag create-or-update
call per input tag. -/
theorem upsertTagsLoop_write_calls_le (self : DataCatalogFacade) (entry_name : String)
    (persisted_tags tags : List Tag) :
    countTagWriteCalls
        (DataCatalogFacade.upsertTagsLoop self entry_name persisted_tags tags).2.1 ≤
      tags.length := by
  induction tags with
  | nil => simp [DataCatalogFacade.upsertTagsLoop, countTagWriteCalls]
  | cons tag rest ih =>
      have h := ih
      simp only [countTagWriteCalls] at h
      simp only [DataCatalogFacade.upsertTagsLoop]
      split
      · split
        · simp only [countTagWriteCalls, List.countP_cons, List.length_cons,
            isTagWriteCall_createTag, if_true]
          omega
        · simp [countTagWriteCalls, List.countP_cons, isTagWriteCall_createTag]
      · split
        · split
          · simp only [countTagWriteCalls, List.countP_cons, List.length_cons,
              isTagWriteCall_updateTag, if_true]
            omega
          · simp [countTagWriteCalls, List.countP_cons, isTagWriteCall_updateTag]
        · simp only [countTagWriteCalls, List.length_cons]
          omega

/-- C5: `upsert_tags` issues at most one tag create-or-update call per
input tag; an empty input list causes no remote call at all; and an input
tag whose field values exactly match the persisted tag with its template id
(persisted template ids being distinct, the invariant `upsert_tags`
maintains) contributes no create-or-update call. -/
theorem upsert_tags_call_discipline (self : DataCatalogFacade) (entry : Entry)
    (persisted rest : List Tag) (tag p : Tag)
    (hnd : (persisted.map Tag.template).Nodup)
    (hmem : p ∈ persisted)
    (htemp : p.template = tag.template)
    (heq : DataCatalogFacade.tags_fields_are_equal tag p = true)
    (hlist : self.datacatalog.list_tags entry.name = .ok persisted) :
    (∀ tags : List Tag,
        countTagWriteCalls (self.upsert_tags entry tags).2.1 ≤ tags.length) ∧
      self.upsert_tags entry [] = (.ok (), [], []) ∧
      (self.upsert_tags entry (tag :: rest)).2.1 =
        Call.listTags entry.name ::
          (DataCatalogFacade.upsertTagsLoop self entry.name persisted rest).2.1 := by
  obtain ⟨hname, hcreate, hupdate⟩ := processTag_spec persisted tag
  have hmatchany : (persisted.any fun q => tag.template == q.template) = true :=
    List.any_eq_true.mpr ⟨p, hmem, beq_iff_eq.mpr htemp.symm⟩
  have hupdany : (persisted.any fun q =>
      (tag.template == q.template) &&
        !(DataCatalogFacade.tags_fields_are_equal tag q)) = false := by
    rw [List.any_eq_false]
    intro q hq
    by_cases hqt : q.template = tag.template
    · have hq_eq_p : q = p :=
        List.inj_on_of_nodup_map hnd hq hmem (by rw [hqt, htemp])
      rw [hq_eq_p, heq]
      simp
    · rw [beq_eq_false_iff_ne.mpr fun h => hqt h.symm]
      simp
  have hflag1 : (DataCatalogFacade.processTag persisted tag).2.1 = false := by
    rw [hcreate, hmatchany]
    rfl
  have hflag2 : (DataCatalogFacade.processTag persisted tag).2.2 = false := by
    rw [hupdate, hupdany]
  refine ⟨?_, rfl, ?_⟩
  · intro tags
    cases tags with
    | nil => simp [DataCatalogFacade.upsert_tags, countTagWriteCalls]
    | cons t ts =>
        simp only [DataCatalogFacade.upsert_tags, List.isEmpty_cons,
          Bool.false_eq_true, if_false]
        cases hl : self.datacatalog.list_tags entry.name with
        | ok ps =>
            have hle := upsertTagsLoop_write_calls_le self entry.name ps (t :: ts)
            simp only [countTagWriteCalls, List.countP_cons,
              show isTagWriteCall (Call.listTags entry.name) = false from rfl,
              Bool.false_eq_true, if_false, List.length_cons] at hle ⊢
            omega
        | error e =>
            simp [countTagWriteCalls, List.countP_cons,
              show isTagWriteCall (Call.listTags entry.name) = false from rfl]
  · simp only [DataCatalogFacade.upsert_tags, hlist, List.isEmpty_cons,
      Bool.false_eq_true, if_false]
    simp only [DataCatalogFacade.upsertTagsLoop]
    rw [hflag1, hflag2]
    simp

/-- Closed instance of C5: one persisted tag on template "T" with matching
field values; the single input tag causes only the list call. -/
theorem upsert_tags_call_discipline_witness :
    countTagWriteCalls
        ((DataCatalogFacade.upsert_tags ⟨oneTagClient, "proj"⟩ entryA [cexTagY]).2.1) ≤ 1 ∧
      DataCatalogFacade.upsert_tags ⟨oneTagClient, "proj"⟩ entryA [] = (.ok (), [], []) ∧
      (DataCatalogFacade.upsert_tags ⟨oneTagClient, "proj"⟩ entryA [cexTagY]).2.1 =
        [Call.listTags "g/entries/e"] := by
  obtain ⟨h1, h2, h3⟩ :=
    upsert_tags_call_discipline ⟨oneTagClient, "proj"⟩ entryA [cexP2] [] cexTagY cexP2
      (by decide) (by decide) rfl (by decide) rfl
  exact ⟨h1 [cexTagY], h2, h3.trans rfl⟩

/-- C6: the tag-equality predicate iterates exactly the first tag's field
ids, comparing the boolean, double, string, timestamp-seconds and
enum-display-name values per id; it is not symmetric: a tag with no fields
compares equal to a tag carrying a `true` boolean field, but not the other
way around. -/
theorem tags_fields_equality_asymmetric :
    (∀ tag_1 tag_2 : Tag,
        DataCatalogFacade.tags_fields_are_equal tag_1 tag_2 = true ↔
          ∀ p ∈ tag_1.fields,
            DataCatalogFacade.tagFieldValuesEqual (getField tag_1.fields p.1)
              (getField tag_2.fields p.1) = true) ∧
      DataCatalogFacade.tags_fields_are_equal cexEmptyTag cexBoolTag = true ∧
      DataCatalogFacade.tags_fields_are_equal cexBoolTag cexEmptyTag = false := by
  refine ⟨fun tag_1 tag_2 => ?_, rfl, rfl⟩
  simp [DataCatalogFacade.tags_fields_are_equal, List.all_eq_true]

/-- Closed instance of C6: the concrete asymmetric pair. -/
theorem tags_fields_equality_asymmetric_witness :
    DataCatalogFacade.tags_fields_are_equal cexEmptyTag cexBoolTag = true ∧
      DataCatalogFacade.tags_fields_are_equal cexBoolTag cexEmptyTag = false :=
  ⟨tags_fields_equality_asymmetric.2.1, tags_fields_equality_asymmetric.2.2⟩

/-- C10 counterexample: the entry holds `cexP1` (differing fields) then
`cexP2` (equal fields), both on the input tag's template.  The LAST matching
persisted tag matches the input exactly, yet an update call is issued: the
update flag was set by the earlier mismatch and is never cleared, so the
last match does NOT determine whether an update occurs. -/
theorem upsert_tags_last_match_cex :
    DataCatalogFacade.tags_fields_are_equal cexTagY cexP2 = true ∧
      cexP2.template = cexTagY.template ∧
      (DataCatalogFacade.upsert_tags ⟨cexTagsClient, "proj"⟩ entryA [cexTagY]).2.1 =
        [Call.listTags "g/entries/e",
         Call.updateTag { cexTagY with name := "n2" }] :=
  ⟨rfl, rfl, rfl⟩

/-- C10 (amended): for an input tag whose template is carried by persisted
tag `p` and by no later persisted tag, `upsert_tags` overwrites the input
tag's name with `p`'s resource name — even when no update call is made —
and issues an update call iff at least one persisted tag with a matching
template id (not necessarily the last) has differing field values. -/
theorem upsert_tags_mutation (self : DataCatalogFacade) (entry : Entry)
    (l1 l2 : List Tag) (tag p : Tag)
    (htemp : p.template = tag.template)
    (hlast : ∀ q ∈ l2, tag.template ≠ q.template)
    (hlist : self.datacatalog.list_tags entry.name = .ok (l1 ++ p :: l2))
    (hupd : ∀ t, self.datacatalog.update_tag t = .ok t) :
    (self.upsert_tags entry [tag]).2.2 = [{ tag with name := p.name }] ∧
      (self.upsert_tags entry [tag]).2.1 =
        (if (l1 ++ p :: l2).any (fun q => (tag.template == q.template) &&
              !(DataCatalogFacade.tags_fields_are_equal tag q)) then
          [Call.listTags entry.name, Call.updateTag { tag with name := p.name }]
        else [Call.listTags entry.name]) := by
  obtain ⟨hname, hcreate, hupdate⟩ := processTag_spec (l1 ++ p :: l2) tag
  have ht : (DataCatalogFacade.processTag (l1 ++ p :: l2) tag).1 =
      { tag with name := p.name } := by
    rw [hname, lastMatchingName_append_last tag.template tag.name l1 l2 p htemp.symm hlast]
  have hmatchany : ((l1 ++ p :: l2).any fun q => tag.template == q.template) = true :=
    List.any_eq_true.mpr ⟨p, by simp, beq_iff_eq.mpr htemp.symm⟩
  have hflag1 : (DataCatalogFacade.processTag (l1 ++ p :: l2) tag).2.1 = false := by
    rw [hcreate, hmatchany]
    rfl
  simp only [DataCatalogFacade.upsert_tags, hlist, List.isEmpty_cons,
    Bool.false_eq_true, if_false]
  simp only [DataCatalogFacade.upsertTagsLoop]
  rw [hflag1, hupdate, ht]
  rw [hupd { tag with name := p.name }]
  cases hb : ((l1 ++ p :: l2).any fun q => (tag.template == q.template) &&
      !(DataCatalogFacade.tags_fields_are_equal tag q)) <;> simp

/-- Closed instance of the amended C10: the mismatching-then-matching
scenario at concrete inputs; the name is overwritten with the last match's
name and an update call is made. -/
theorem upsert_tags_mutation_witness :
    (DataCatalogFacade.upsert_tags ⟨cexTagsClient, "proj"⟩ entryA [cexTagY]).2.2 =
        [{ cexTagY with name := cexP2.name }] ∧
      (DataCatalogFacade.upsert_tags ⟨cexTagsClient, "proj"⟩ entryA [cexTagY]).2.1 =
        [Call.listTags "g/entries/e", Call.updateTag { cexTagY with name := cexP2.name }] := by
  obtain ⟨h1, h2⟩ :=
    upsert_tags_mutation ⟨cexTagsClient, "proj"⟩ entryA [cexP1] [] cexTagY cexP2
      rfl (fun q hq => absurd hq (List.not_mem_nil q)) rfl (fun t => rfl)
  exact ⟨h1, h2.trans (by rfl)⟩

end DataCatalog
